import Mathlib

/-!
Verification of the provider-resilience core of the Ai-Council repository:
circuit breaker, rate limiter, model registry, execution-mode presets and
provider health checker, shallowly embedded from the Python sources in
`backend/app/services/`.
-/

/-! ## Circuit breaker (`backend/app/services/cloud_ai/circuit_breaker.py`)

Wall-clock times (`time.time()`) are modelled as rationals; every operation
that reads the clock takes the current time as an explicit argument.
-/

/-- The `CircuitState` enum. -/
inductive CircuitState where
  | CLOSED
  | OPEN
  | HALF_OPEN
deriving DecidableEq

/-- The `CircuitBreakerConfig` dataclass with its default field values. -/
structure CircuitBreakerConfig where
  failure_threshold : Nat := 5
  timeout : ℚ := 60
  success_threshold : Nat := 2
  max_timeout : ℚ := 300

/-- The `CircuitBreakerState` dataclass with its default field values. -/
structure CircuitBreakerState where
  state : CircuitState := CircuitState.CLOSED
  failure_count : Nat := 0
  success_count : Nat := 0
  last_failure_time : Option ℚ := none
  opened_at : Option ℚ := none
  timeout : ℚ := 60
deriving DecidableEq

/-- The state lazily created on first reference to a provider
(`CircuitBreakerState()` with all defaults). -/
def initCircuitState : CircuitBreakerState := {}

/-- `CircuitBreaker.get_state`: returns the current phase and performs the lazy
OPEN → HALF_OPEN transition.  The Python guard `if state.state == OPEN and
state.opened_at` uses float truthiness, so `opened_at = 0.0` does not pass. -/
def get_state (s : CircuitBreakerState) (now : ℚ) : CircuitState × CircuitBreakerState :=
  match s.state, s.opened_at with
  | CircuitState.OPEN, some t =>
      if t ≠ 0 then
        if now - t ≥ s.timeout then
          let s2 : CircuitBreakerState := { s with state := CircuitState.HALF_OPEN, success_count := 0 }
          (s2.state, s2)
        else (s.state, s)
      else (s.state, s)
  | _, _ => (s.state, s)

/-- `CircuitBreaker.record_success`. -/
def record_success (cfg : CircuitBreakerConfig) (s : CircuitBreakerState) : CircuitBreakerState :=
  match s.state with
  | CircuitState.HALF_OPEN =>
      let sc := s.success_count + 1
      if sc ≥ cfg.success_threshold then
        { s with state := CircuitState.CLOSED, failure_count := 0, success_count := 0,
                 timeout := cfg.timeout }
      else { s with success_count := sc }
  | CircuitState.CLOSED => { s with failure_count := 0 }
  | CircuitState.OPEN => s

/-- `CircuitBreaker.record_failure` (the two `time.time()` reads inside the body
happen at the same call, modelled by the single argument `now`). -/
def record_failure (cfg : CircuitBreakerConfig) (s : CircuitBreakerState) (now : ℚ) :
    CircuitBreakerState :=
  let s1 : CircuitBreakerState :=
    { s with failure_count := s.failure_count + 1, last_failure_time := some now }
  match s1.state with
  | CircuitState.HALF_OPEN =>
      { s1 with state := CircuitState.OPEN, opened_at := some now,
                timeout := min (s1.timeout * 2) cfg.max_timeout }
  | CircuitState.CLOSED =>
      if s1.failure_count ≥ cfg.failure_threshold then
        { s1 with state := CircuitState.OPEN, opened_at := some now, timeout := cfg.timeout }
      else s1
  | CircuitState.OPEN => s1

/-- `CircuitBreaker.is_available`: true iff `get_state` is not OPEN; returns the
possibly-updated state as well (the lazy transition is a side effect). -/
def is_available (s : CircuitBreakerState) (now : ℚ) : Bool × CircuitBreakerState :=
  let r := get_state s now
  (decide (r.1 ≠ CircuitState.OPEN), r.2)

/-- Outcome of `CircuitBreaker.call`: the distinguished `CircuitBreakerOpenError`,
the re-raised exception of the wrapped operation, or its result. -/
inductive CallResult (ε α : Type) where
  | breakerOpen : CallResult ε α
  | opFailed : ε → CallResult ε α
  | ok : α → CallResult ε α
deriving DecidableEq

/-- `CircuitBreaker.call`: the wrapped operation is modelled by its outcome
`op : Except ε α`; the returned `Bool` records whether the operation was
invoked at all. -/
def CircuitBreaker.call (cfg : CircuitBreakerConfig) (s : CircuitBreakerState) (now : ℚ)
    (op : Except ε α) : CallResult ε α × CircuitBreakerState × Bool :=
  let a := is_available s now
  if a.1 then
    match op with
    | Except.ok v => (CallResult.ok v, record_success cfg a.2, true)
    | Except.error e => (CallResult.opFailed e, record_failure cfg a.2 now, true)
  else (CallResult.breakerOpen, a.2, false)

/-- `n` consecutive `record_failure` calls, the `i`-th at time `f i`. -/
def record_failures (cfg : CircuitBreakerConfig) (f : Nat → ℚ) :
    Nat → CircuitBreakerState → CircuitBreakerState
  | 0, s => s
  | n + 1, s => record_failure cfg (record_failures cfg f n s) (f n)

/-- `n` consecutive `record_success` calls. -/
def record_successes (cfg : CircuitBreakerConfig) :
    Nat → CircuitBreakerState → CircuitBreakerState
  | 0, s => s
  | n + 1, s => record_success cfg (record_successes cfg n s)

/-! ### Circuit-breaker lemmas -/

/-- While strictly below the failure threshold, consecutive failures from the
initial state only bump the counters: the phase stays CLOSED. -/
lemma record_failures_lt_threshold (cfg : CircuitBreakerConfig) (f : Nat → ℚ) :
    ∀ n, n < cfg.failure_threshold →
      record_failures cfg f n initCircuitState =
        { initCircuitState with
            failure_count := n,
            last_failure_time := if n = 0 then none else some (f (n - 1)) } := by
  intro n
  induction n with
  | zero =>
      intro _
      simp [record_failures, initCircuitState]
  | succ k ih =>
      intro hk
      have hk2 : k < cfg.failure_threshold := Nat.lt_of_succ_lt hk
      rw [record_failures, ih hk2]
      have hlt : ¬ (cfg.failure_threshold ≤ k + 1) := by omega
      simp [record_failure, initCircuitState, hlt]

lemma get_state_closed (s : CircuitBreakerState) (now : ℚ)
    (h : s.state = CircuitState.CLOSED) : get_state s now = (CircuitState.CLOSED, s) := by
  unfold get_state
  cases hs : s.state <;> simp_all

lemma get_state_open_early (s : CircuitBreakerState) (now t : ℚ)
    (h : s.state = CircuitState.OPEN) (ht : s.opened_at = some t) (ht0 : t ≠ 0)
    (hlt : now - t < s.timeout) : get_state s now = (CircuitState.OPEN, s) := by
  unfold get_state
  rw [h, ht]
  simp [ht0, not_le.mpr hlt, h]


lemma get_state_open_unchanged (s : CircuitBreakerState) (now : ℚ)
    (h : (get_state s now).1 = CircuitState.OPEN) : (get_state s now).2 = s := by
  unfold get_state at h ⊢
  rcases hs : s.state <;> rcases ho : s.opened_at <;> simp [hs, ho] at h ⊢
  split_ifs at h ⊢ with h1 h2 <;> first | rfl | simp at h

lemma record_successes_lt_threshold (cfg : CircuitBreakerConfig) (s : CircuitBreakerState)
    (hs : s.state = CircuitState.HALF_OPEN) (h0 : s.success_count = 0) :
    ∀ k, k < cfg.success_threshold →
      record_successes cfg k s = { s with success_count := k } := by
  intro k
  induction k with
  | zero =>
      intro _
      simp only [record_successes]
      cases s
      simp_all
  | succ j ih =>
      intro hj
      have hj2 : j < cfg.success_threshold := Nat.lt_of_succ_lt hj
      rw [record_successes, ih hj2]
      have hlt : ¬ (cfg.success_threshold ≤ j + 1) := by omega
      simp [record_success, hs, hlt]

/-! ### Claim theorems for the circuit breaker -/

/-- C1: from the initial CLOSED state, any `n < failure_threshold` consecutive
`record_failure` calls (no intervening success) leave the phase CLOSED with
`is_available = true`; the `failure_threshold`-th consecutive failure opens the
circuit with `opened_at` set to the time of that failure and `current_timeout`
set to the base timeout, after which `is_available = false` (queried before the
timeout elapses). -/
theorem closed_until_threshold_then_opens (cfg : CircuitBreakerConfig) (f : Nat → ℚ)
    (n : Nat) (now : ℚ)
    (hn : n < cfg.failure_threshold)
    (ht : 0 < f (cfg.failure_threshold - 1))
    (hnow : now - f (cfg.failure_threshold - 1) < cfg.timeout) :
    (record_failures cfg f n initCircuitState).state = CircuitState.CLOSED ∧
    (is_available (record_failures cfg f n initCircuitState) now).1 = true ∧
    record_failures cfg f cfg.failure_threshold initCircuitState =
      { initCircuitState with
          state := CircuitState.OPEN,
          failure_count := cfg.failure_threshold,
          last_failure_time := some (f (cfg.failure_threshold - 1)),
          opened_at := some (f (cfg.failure_threshold - 1)),
          timeout := cfg.timeout } ∧
    (is_available (record_failures cfg f cfg.failure_threshold initCircuitState) now).1 = false := by
  have hstep := record_failures_lt_threshold cfg f n hn
  have hclosed : (record_failures cfg f n initCircuitState).state = CircuitState.CLOSED := by
    rw [hstep]
    rfl
  obtain ⟨k, hk⟩ : ∃ k, cfg.failure_threshold = k + 1 := ⟨cfg.failure_threshold - 1, by omega⟩
  have hk1 : k = cfg.failure_threshold - 1 := by omega
  subst hk1
  have hopen : record_failures cfg f cfg.failure_threshold initCircuitState =
      { initCircuitState with
          state := CircuitState.OPEN,
          failure_count := cfg.failure_threshold,
          last_failure_time := some (f (cfg.failure_threshold - 1)),
          opened_at := some (f (cfg.failure_threshold - 1)),
          timeout := cfg.timeout } := by
    rw [hk, record_failures, record_failures_lt_threshold cfg f _ (by omega)]
    have hge : cfg.failure_threshold ≤ cfg.failure_threshold - 1 + 1 := by omega
    simp [record_failure, initCircuitState, hge, ← hk]
  refine ⟨hclosed, ?_, hopen, ?_⟩
  · unfold is_available
    rw [get_state_closed _ _ hclosed]
    simp
  · unfold is_available
    rw [get_state_open_early _ now (f (cfg.failure_threshold - 1))
      (by rw [hopen]) (by rw [hopen]) (ne_of_gt ht) (by rw [hopen]; exact hnow)]
    simp

/-- Witness for `closed_until_threshold_then_opens` with the default config,
3 failures then the 5th, all at time 1, queried at time 1. -/
theorem closed_until_threshold_then_opens_witness :
    (record_failures {} (fun _ => 1) 3 initCircuitState).state = CircuitState.CLOSED ∧
    (is_available (record_failures {} (fun _ => 1) 3 initCircuitState) 1).1 = true ∧
    record_failures {} (fun _ => 1) 5 initCircuitState =
      { initCircuitState with
          state := CircuitState.OPEN, failure_count := 5,
          last_failure_time := some 1, opened_at := some 1, timeout := 60 } ∧
    (is_available (record_failures {} (fun _ => 1) 5 initCircuitState) 1).1 = false :=
  closed_until_threshold_then_opens {} (fun _ => 1) 3 1 (by decide) (by norm_num) (by norm_num)

/-- C2: an OPEN provider whose timeout has elapsed is moved to HALF_OPEN (with
the half-open success count reset to 0) by the next `get_state` call; in
HALF_OPEN, `success_threshold` consecutive successes close the circuit with the
failure count reset to 0 and the timeout reset to the base value, while a single
failure reopens it with the timeout doubled, capped at `max_timeout`. -/
theorem open_recovery_cycle (cfg : CircuitBreakerConfig)
    (sO sH sF : CircuitBreakerState) (t now now2 : ℚ)
    (hO1 : sO.state = CircuitState.OPEN) (hO2 : sO.opened_at = some t) (hO3 : 0 < t)
    (hO4 : now - t ≥ sO.timeout)
    (hth : 0 < cfg.success_threshold)
    (hH1 : sH.state = CircuitState.HALF_OPEN) (hH2 : sH.success_count = 0)
    (hF1 : sF.state = CircuitState.HALF_OPEN) :
    get_state sO now =
      (CircuitState.HALF_OPEN, { sO with state := CircuitState.HALF_OPEN, success_count := 0 }) ∧
    record_successes cfg cfg.success_threshold sH =
      { sH with state := CircuitState.CLOSED, failure_count := 0, success_count := 0,
                timeout := cfg.timeout } ∧
    record_failure cfg sF now2 =
      { sF with state := CircuitState.OPEN, failure_count := sF.failure_count + 1,
                last_failure_time := some now2, opened_at := some now2,
                timeout := min (sF.timeout * 2) cfg.max_timeout } := by
  refine ⟨?_, ?_, ?_⟩
  · unfold get_state
    rw [hO1, hO2]
    simp [ne_of_gt hO3, hO4]
  · obtain ⟨k, hk⟩ : ∃ k, cfg.success_threshold = k + 1 := ⟨cfg.success_threshold - 1, by omega⟩
    rw [hk, record_successes, record_successes_lt_threshold cfg sH hH1 hH2 k (by omega)]
    have hge : cfg.success_threshold ≤ k + 1 := by omega
    simp [record_success, hH1, hge]
  · simp [record_failure, hF1]

/-- Witness for `open_recovery_cycle`: default config, circuit opened at time 1
with base timeout 60, queried at time 61; two half-open successes; one
half-open failure at time 100. -/
theorem open_recovery_cycle_witness :
    get_state { initCircuitState with state := CircuitState.OPEN, opened_at := some 1 } 61 =
      (CircuitState.HALF_OPEN,
        { initCircuitState with state := CircuitState.HALF_OPEN, opened_at := some 1,
                                success_count := 0 }) ∧
    record_successes {} 2 { initCircuitState with state := CircuitState.HALF_OPEN } =
      { initCircuitState with state := CircuitState.CLOSED, failure_count := 0,
                              success_count := 0, timeout := 60 } ∧
    record_failure {} { initCircuitState with state := CircuitState.HALF_OPEN } 100 =
      { initCircuitState with state := CircuitState.OPEN, failure_count := 1,
                              last_failure_time := some 100, opened_at := some 100,
                              timeout := min (60 * 2) 300 } :=
  open_recovery_cycle {}
    { initCircuitState with state := CircuitState.OPEN, opened_at := some 1 }
    { initCircuitState with state := CircuitState.HALF_OPEN }
    { initCircuitState with state := CircuitState.HALF_OPEN }
    1 61 100 rfl rfl (by norm_num) (by norm_num [initCircuitState]) (by decide) rfl rfl rfl

/-- C10: while a provider's circuit is OPEN (timeout not yet elapsed),
`record_success` is a no-op on its state, and `record_failure` changes only
`failure_count` and `last_failure_time`: the phase stays OPEN and `opened_at`
and the current timeout are untouched, so reports arriving during the outage
never lengthen or shorten the backoff window. -/
theorem open_state_frame (cfg : CircuitBreakerConfig) (s : CircuitBreakerState)
    (t now now2 : ℚ)
    (h1 : s.state = CircuitState.OPEN) (h2 : s.opened_at = some t)
    (h3 : now - t < s.timeout) :
    record_success cfg s = s ∧
    record_failure cfg s now2 =
      { s with failure_count := s.failure_count + 1, last_failure_time := some now2 } := by
  constructor
  · simp [record_success, h1]
  · simp [record_failure, h1]

/-- Witness for `open_state_frame`: default config, circuit opened at time 1,
current time 30, a success and a failure reported at time 30. -/
theorem open_state_frame_witness :
    record_success {}
        { initCircuitState with state := CircuitState.OPEN, failure_count := 5,
                                opened_at := some 1 } =
      { initCircuitState with state := CircuitState.OPEN, failure_count := 5,
                              opened_at := some 1 } ∧
    record_failure {}
        { initCircuitState with state := CircuitState.OPEN, failure_count := 5,
                                opened_at := some 1 } 30 =
      { initCircuitState with state := CircuitState.OPEN, failure_count := 5 + 1,
                              last_failure_time := some 30, opened_at := some 1 } :=
  open_state_frame {}
    { initCircuitState with state := CircuitState.OPEN, failure_count := 5,
                            opened_at := some 1 }
    1 30 30 rfl rfl (by norm_num [initCircuitState])

/-- C5: `call` raises the distinguished breaker-open error without invoking the
operation when the provider is unavailable, and the rejection leaves the
circuit state exactly as it was (no failure is recorded); when the provider is
available, the operation is invoked, a success is recorded and its result
returned on normal return, and a failure is recorded and the error re-raised
when it raises. -/
theorem call_breaker_semantics (cfg : CircuitBreakerConfig) (sR sA : CircuitBreakerState)
    (now : ℚ) (ε α : Type) (v : α) (e : ε)
    (hR : (get_state sR now).1 = CircuitState.OPEN)
    (hA : (get_state sA now).1 ≠ CircuitState.OPEN) :
    (∀ op : Except ε α, CircuitBreaker.call cfg sR now op =
      (CallResult.breakerOpen, sR, false)) ∧
    CircuitBreaker.call cfg sA now (Except.ok v : Except ε α) =
      (CallResult.ok v, record_success cfg (get_state sA now).2, true) ∧
    CircuitBreaker.call cfg sA now (Except.error e : Except ε α) =
      (CallResult.opFailed e, record_failure cfg (get_state sA now).2 now, true) := by
  have hunch := get_state_open_unchanged sR now hR
  refine ⟨fun op => ?_, ?_, ?_⟩
  · unfold CircuitBreaker.call is_available
    simp [hR, hunch]
  · unfold CircuitBreaker.call is_available
    simp [hA]
  · unfold CircuitBreaker.call is_available
    simp [hA]

/-- A circuit that was opened at time 1, used as a concrete witness state. -/
def openCircuitAt1 : CircuitBreakerState :=
  { initCircuitState with state := CircuitState.OPEN, opened_at := some 1 }

/-- Witness for `call_breaker_semantics`: a rejected call on an open circuit at
time 1 and invoked calls on the initial closed circuit. -/
theorem call_breaker_semantics_witness :
    (∀ op : Except String Nat,
      CircuitBreaker.call {} openCircuitAt1 1 op =
        (CallResult.breakerOpen, openCircuitAt1, false)) ∧
    CircuitBreaker.call {} initCircuitState 1 (Except.ok 7 : Except String Nat) =
      (CallResult.ok 7, record_success {} (get_state initCircuitState 1).2, true) ∧
    CircuitBreaker.call {} initCircuitState 1 (Except.error "boom" : Except String Nat) =
      (CallResult.opFailed "boom", record_failure {} (get_state initCircuitState 1).2 1, true) :=
  call_breaker_semantics {} openCircuitAt1
    initCircuitState 1 String Nat 7 "boom"
    (by rw [get_state_open_early openCircuitAt1 1 1 rfl rfl one_ne_zero
          (by norm_num [openCircuitAt1, initCircuitState])])
    (by rw [get_state_closed initCircuitState 1 rfl]; simp)

/-! ## Rate limiter (`backend/app/services/rate_limiter.py`)

The Redis counting store is modelled as a map from string keys to a counter
value together with its absolute expiry time; `int(time.time())` is a natural
number.  `check_limit` is split into the code before the first `await` on the
store (the counter read) and the code after it (the check and the
increment-with-expiry pipeline), exactly at the scheduling point where another
asyncio task can run. -/

/-- The Redis store: key to (counter value, absolute expiry time). -/
def RedisStore : Type := String → Option (Nat × Nat)

/-- `GET key` at time `now`: an expired entry reads as absent. -/
def redis_get (store : RedisStore) (now : Nat) (key : String) : Option Nat :=
  match store key with
  | none => none
  | some (c, expiry) => if now < expiry then some c else none

/-- The `INCR key` / `EXPIRE key ttl` pipeline at time `now`. -/
def redis_incr_expire (store : RedisStore) (now : Nat) (key : String) (ttl : Nat) :
    RedisStore :=
  fun k => if k = key then some ((redis_get store now key).getD 0 + 1, now + ttl) else store k

/-- The `RateLimiter` service: the three tier limits from settings; the window
is hard-coded to 3600 s in `__init__`. -/
structure RateLimiter where
  authenticated_limit : Nat
  demo_limit : Nat
  admin_limit : Nat
  window_seconds : Nat := 3600

/-- Tier selection at the top of `check_limit`. -/
def tier_limit (rl : RateLimiter) (is_demo is_admin : Bool) : Nat :=
  if is_admin then rl.admin_limit
  else if is_demo then rl.demo_limit
  else rl.authenticated_limit

/-- The Redis key `rate_limit[:demo]:{identifier}:hour:{window_start}`. -/
def rate_key (identifier : String) (is_demo : Bool) (window_start : Nat) : String :=
  if is_demo then
    "rate_limit:demo:" ++ identifier ++ ":hour:" ++ toString window_start
  else
    "rate_limit:" ++ identifier ++ ":hour:" ++ toString window_start

/-- First half of `check_limit`: everything up to and including the awaited
counter read (`current_count`). -/
def check_limit_read (rl : RateLimiter) (store : RedisStore) (now : Nat)
    (identifier : String) (is_demo : Bool) : Nat :=
  (redis_get store now
    (rate_key identifier is_demo (now - now % rl.window_seconds))).getD 0

/-- Second half of `check_limit`: the limit check and, when allowed, the
increment-with-expiry pipeline, given the previously read `current_count`. -/
def check_limit_write (rl : RateLimiter) (store : RedisStore) (now : Nat)
    (identifier : String) (is_demo is_admin : Bool) (current_count : Nat) :
    (Bool × Nat × Nat) × RedisStore :=
  if current_count ≥ tier_limit rl is_demo is_admin then
    ((false, 0, (now - now % rl.window_seconds) + rl.window_seconds), store)
  else
    ((true, tier_limit rl is_demo is_admin - current_count - 1,
        (now - now % rl.window_seconds) + rl.window_seconds),
      redis_incr_expire store now
        (rate_key identifier is_demo (now - now % rl.window_seconds)) rl.window_seconds)

/-- `RateLimiter.check_limit`, returning `(is_allowed, remaining, reset_at)`
and the updated store. -/
def check_limit (rl : RateLimiter) (store : RedisStore) (now : Nat)
    (identifier : String) (is_demo is_admin : Bool) : (Bool × Nat × Nat) × RedisStore :=
  check_limit_write rl store now identifier is_demo is_admin
    (check_limit_read rl store now identifier is_demo)

/-- The store after `n` sequential `check_limit` calls, the `i`-th at time `f i`. -/
def check_limit_iter (rl : RateLimiter) (identifier : String) (is_demo is_admin : Bool)
    (f : Nat → Nat) : Nat → RedisStore → RedisStore
  | 0, store => store
  | n + 1, store =>
      (check_limit rl (check_limit_iter rl identifier is_demo is_admin f n store)
        (f n) identifier is_demo is_admin).2

/-- The output of the `n`-th sequential `check_limit` call (0-indexed). -/
def check_limit_out (rl : RateLimiter) (identifier : String) (is_demo is_admin : Bool)
    (f : Nat → Nat) (n : Nat) (store : RedisStore) : Bool × Nat × Nat :=
  (check_limit rl (check_limit_iter rl identifier is_demo is_admin f n store)
    (f n) identifier is_demo is_admin).1

/-! ### Rate-limiter lemmas -/

/-- Any time inside the aligned window `[w, w + ws)` buckets to `w`. -/
lemma window_start_eq (ws w t : Nat) (hw : w % ws = 0) (h1 : w ≤ t) (h2 : t < w + ws) :
    t - t % ws = w := by
  have hr : t - w < ws := by omega
  have hmod : t % ws = t - w := by
    conv_lhs => rw [show t = w + (t - w) by omega]
    rw [Nat.add_mod, hw]
    simp [Nat.mod_eq_of_lt hr]
  omega

/-- After `n ≤ limit` calls inside window `w` against an initially empty
counter, the stored counter holds `n` with expiry one window length after the
last call. -/
lemma check_limit_iter_store (rl : RateLimiter) (identifier : String)
    (is_demo is_admin : Bool) (f : Nat → Nat) (store0 : RedisStore) (w : Nat)
    (hw : w % rl.window_seconds = 0)
    (hf : ∀ i, w ≤ f i ∧ f i < w + rl.window_seconds)
    (h0 : store0 (rate_key identifier is_demo w) = none) :
    ∀ n, n ≤ tier_limit rl is_demo is_admin →
      check_limit_iter rl identifier is_demo is_admin f n store0
          (rate_key identifier is_demo w) =
        if n = 0 then none else some (n, f (n - 1) + rl.window_seconds) := by
  intro n
  induction n with
  | zero =>
      intro _
      simpa [check_limit_iter] using h0
  | succ k ih =>
      intro hk
      have hk2 : k ≤ tier_limit rl is_demo is_admin := by omega
      have hws : f k - f k % rl.window_seconds = w :=
        window_start_eq rl.window_seconds w (f k) hw (hf k).1 (hf k).2
      have hget : redis_get (check_limit_iter rl identifier is_demo is_admin f k store0)
          (f k) (rate_key identifier is_demo w) =
          if k = 0 then none else some k := by
        unfold redis_get
        rw [ih hk2]
        rcases Nat.eq_zero_or_pos k with hk0 | hk0
        · simp [hk0]
        · have hkne : k ≠ 0 := by omega
          have hlt : f k < f (k - 1) + rl.window_seconds := by
            have h1 := (hf k).2
            have h2 := (hf (k - 1)).1
            omega
          simp [hkne, hlt]
      have hcount : check_limit_read rl
          (check_limit_iter rl identifier is_demo is_admin f k store0) (f k)
          identifier is_demo = k := by
        unfold check_limit_read
        rw [hws, hget]
        rcases Nat.eq_zero_or_pos k with hk0 | hk0
        · simp [hk0]
        · have hkne : k ≠ 0 := by omega
          simp [hkne]
      have hklt : k < tier_limit rl is_demo is_admin := by omega
      show (check_limit rl (check_limit_iter rl identifier is_demo is_admin f k store0)
          (f k) identifier is_demo is_admin).2 (rate_key identifier is_demo w) = _
      unfold check_limit check_limit_write
      rw [hcount, hws]
      rw [if_neg (by omega : ¬ (k ≥ tier_limit rl is_demo is_admin))]
      unfold redis_incr_expire
      rw [hget]
      rcases Nat.eq_zero_or_pos k with hk0 | hk0
      · simp [hk0]
      · have hkne : k ≠ 0 := by omega
        simp [hkne]

/-- C3: starting from a window whose counter is absent, every call inside the
window among the first `limit` is allowed with `remaining = limit − count − 1`
(so strictly decreasing to 0), each allowed call stores the incremented counter
with expiry one window length after the call, the `(limit+1)`-th call is
rejected with `remaining = 0`, and every call returns
`reset_at = window_start + window_seconds`. -/
theorem rate_limit_window_behavior (rl : RateLimiter) (identifier : String)
    (is_demo is_admin : Bool) (f : Nat → Nat) (store0 : RedisStore) (w : Nat)
    (hw : w % rl.window_seconds = 0)
    (hf : ∀ i, w ≤ f i ∧ f i < w + rl.window_seconds)
    (h0 : store0 (rate_key identifier is_demo w) = none) :
    (∀ n, n < tier_limit rl is_demo is_admin →
       check_limit_out rl identifier is_demo is_admin f n store0 =
         (true, tier_limit rl is_demo is_admin - n - 1, w + rl.window_seconds)) ∧
    check_limit_out rl identifier is_demo is_admin f (tier_limit rl is_demo is_admin) store0 =
      (false, 0, w + rl.window_seconds) ∧
    (∀ n, n ≤ tier_limit rl is_demo is_admin → n ≠ 0 →
       check_limit_iter rl identifier is_demo is_admin f n store0
           (rate_key identifier is_demo w) =
         some (n, f (n - 1) + rl.window_seconds)) := by
  have hstore := check_limit_iter_store rl identifier is_demo is_admin f store0 w hw hf h0
  have hcount : ∀ n, n ≤ tier_limit rl is_demo is_admin →
      check_limit_read rl (check_limit_iter rl identifier is_demo is_admin f n store0)
        (f n) identifier is_demo = n := by
    intro n hn
    unfold check_limit_read redis_get
    rw [window_start_eq rl.window_seconds w (f n) hw (hf n).1 (hf n).2, hstore n hn]
    rcases Nat.eq_zero_or_pos n with hn0 | hn0
    · simp [hn0]
    · have hnne : n ≠ 0 := by omega
      have hlt : f n < f (n - 1) + rl.window_seconds := by
        have h1 := (hf n).2
        have h2 := (hf (n - 1)).1
        omega
      simp [hnne, hlt]
  refine ⟨?_, ?_, ?_⟩
  · intro n hn
    unfold check_limit_out check_limit
    rw [hcount n (Nat.le_of_lt hn)]
    unfold check_limit_write
    rw [window_start_eq rl.window_seconds w (f n) hw (hf n).1 (hf n).2,
      if_neg (by omega : ¬ (n ≥ tier_limit rl is_demo is_admin))]
  · unfold check_limit_out check_limit
    rw [hcount _ (Nat.le_refl _)]
    unfold check_limit_write
    rw [window_start_eq rl.window_seconds w (f (tier_limit rl is_demo is_admin)) hw
        (hf (tier_limit rl is_demo is_admin)).1 (hf (tier_limit rl is_demo is_admin)).2,
      if_pos (Nat.le_refl _)]
  · intro n hn hne
    rw [hstore n hn, if_neg hne]

/-- The concrete rate limiter used in the witness: demo tier limit 2. -/
def rlWitness : RateLimiter := ⟨5, 2, 10, 3600⟩

/-- Witness for `rate_limit_window_behavior`: a demo identifier issuing all its
calls at time 7200 (window `[7200, 10800)`) against an empty store, with demo
limit 2: the first call is allowed with remaining 1, the third rejected. -/
theorem rate_limit_window_behavior_witness :
    check_limit_out rlWitness "u" true false (fun _ => 7200) 0 (fun _ => none) =
      (true, 1, 10800) ∧
    check_limit_out rlWitness "u" true false (fun _ => 7200) 2 (fun _ => none) =
      (false, 0, 10800) ∧
    check_limit_iter rlWitness "u" true false (fun _ => 7200) 2 (fun _ => none)
        (rate_key "u" true 7200) = some (2, 10800) :=
  have h := rate_limit_window_behavior rlWitness "u" true false (fun _ => 7200)
    (fun _ => none) 7200 (by decide) (fun i => ⟨Nat.le_refl _, by norm_num [rlWitness]⟩) rfl
  ⟨h.1 0 (by decide), h.2.1, h.2.2 2 (by decide) (by decide)⟩

/-- The rate limiter of the race scenario: demo tier limit 1. -/
def raceRL : RateLimiter := ⟨100, 1, 1000, 3600⟩

/-- The empty Redis store. -/
def emptyStore : RedisStore := fun _ => none

/-- First racing task: reads the empty counter and performs its write. -/
def raceStep1 : (Bool × Nat × Nat) × RedisStore :=
  check_limit_write raceRL emptyStore 7200 "ip" true false
    (check_limit_read raceRL emptyStore 7200 "ip" true)

/-- Second racing task: its counter read happened before the first task's
write (both tasks were between the awaited `GET` and the pipeline), so it
uses the stale count from the empty store while writing on top of the first
task's store. -/
def raceStep2 : (Bool × Nat × Nat) × RedisStore :=
  check_limit_write raceRL raceStep1.2 7200 "ip" true false
    (check_limit_read raceRL emptyStore 7200 "ip" true)

/-- C9 (code bug): `check_limit` performs the counter read as an `await` that
is separate from the `INCR`/`EXPIRE` pipeline, so two concurrent calls for the
same demo identifier (limit 1) can both observe the stale pre-increment count
0 and both be allowed, leaving the counter at 2; a second sequential call is
rejected, showing only one of the two should have been allowed. -/
theorem rate_limiter_race_both_allowed :
    raceStep1.1.1 = true ∧
    raceStep2.1.1 = true ∧
    redis_get raceStep2.2 7200 (rate_key "ip" true 7200) = some 2 ∧
    tier_limit raceRL true false = 1 ∧
    (check_limit raceRL raceStep1.2 7200 "ip" true false).1.1 = false :=
  ⟨rfl, rfl, rfl, rfl, rfl⟩

/-! ## Provider health checker (`backend/app/services/provider_health_checker.py`)

The probe outcome of `_check_provider_endpoint`'s HTTP request is modelled by
`ProbeResult` (a response with a status code, an `httpx.TimeoutException`, or
any other exception with its message); `datetime.utcnow()` readings and the
measured response time are passed in explicitly. -/

/-- The `ProviderHealthStatus` record (`status` is one of the strings
`"healthy"`, `"degraded"`, `"down"`). -/
structure ProviderHealthStatus where
  status : String
  last_check : ℚ
  response_time_ms : Option ℚ := none
  error_message : Option String := none
deriving DecidableEq

/-- `HEALTH_CHECK_ENDPOINTS`, in source order. -/
def HEALTH_CHECK_ENDPOINTS : List (String × String) :=
  [("groq", "https://api.groq.com/openai/v1/models"),
   ("together", "https://api.together.xyz/v1/models"),
   ("openrouter", "https://openrouter.ai/api/v1/models"),
   ("huggingface", "https://huggingface.co/api/models")]

/-- The registered provider names (the keys of `HEALTH_CHECK_ENDPOINTS`). -/
def PROVIDERS : List String := HEALTH_CHECK_ENDPOINTS.map Prod.fst

/-- Outcome of the probe HTTP request. -/
inductive ProbeResult where
  | response (status_code : Nat)
  | timedOut
  | raised (msg : String)

/-- `_check_provider_endpoint`: classify the probe outcome. -/
def check_provider_endpoint (probe : ProbeResult) (now rt : ℚ) : ProviderHealthStatus :=
  match probe with
  | ProbeResult.response sc =>
      if sc = 200 then ⟨"healthy", now, some rt, none⟩
      else if 200 < sc ∧ sc < 500 then
        ⟨"degraded", now, some rt, some ("HTTP " ++ toString sc)⟩
      else ⟨"down", now, some rt, some ("HTTP " ++ toString sc)⟩
  | ProbeResult.timedOut => ⟨"down", now, some rt, some "Request timeout"⟩
  | ProbeResult.raised m => ⟨"down", now, some rt, some m⟩

/-- Python truthiness of the optional error-message string
(`if not health_status.error_message`). -/
def truthyStr : Option String → Bool
  | none => false
  | some s => decide (s ≠ "")

/-- The circuit-breaker fold-in inside `check_provider_health`. -/
def fold_circuit_state (h : ProviderHealthStatus) (cs : CircuitState) :
    ProviderHealthStatus :=
  match cs with
  | CircuitState.OPEN =>
      { h with status := "down",
               error_message := if truthyStr h.error_message then h.error_message
                                else some "Circuit breaker open" }
  | CircuitState.HALF_OPEN =>
      if h.status = "healthy" then { h with status := "degraded" } else h
  | CircuitState.CLOSED => h

/-- The Redis cache key `provider:health:{provider}`. -/
def health_cache_key (provider : String) : String := "provider:health:" ++ provider

/-- The cache-miss path of `check_provider_health` for a registered provider:
probe, classify, fold in the circuit state, write the folded result back to the
cache, return it (the 60 s cache TTL is not tracked). -/
def check_provider_health_miss (provider : String) (probe : ProbeResult) (now rt : ℚ)
    (cs : CircuitState) (cache : String → Option ProviderHealthStatus) :
    ProviderHealthStatus × (String → Option ProviderHealthStatus) :=
  let h := fold_circuit_state (check_provider_endpoint probe now rt) cs
  (h, fun k => if k = health_cache_key provider then some h else cache k)

/-- The raw probe classification as the (amended) specification words it: a 200
response is healthy, any other status strictly between 200 and 500 is degraded,
everything else (other statuses, timeout, exception) is down. -/
def spec_raw_status (probe : ProbeResult) : String :=
  match probe with
  | ProbeResult.response sc =>
      if sc = 200 then "healthy"
      else if 200 < sc ∧ sc < 500 then "degraded"
      else "down"
  | ProbeResult.timedOut => "down"
  | ProbeResult.raised _ => "down"

/-- The folded status as the (amended) specification words it: an OPEN circuit
forces down regardless of the probe result and a HALF_OPEN circuit downgrades
healthy to degraded. -/
def spec_folded_status (probe : ProbeResult) (cs : CircuitState) : String :=
  match cs with
  | CircuitState.OPEN => "down"
  | CircuitState.HALF_OPEN =>
      if spec_raw_status probe = "healthy" then "degraded" else spec_raw_status probe
  | CircuitState.CLOSED => spec_raw_status probe

/-- Counterexample to C4 as stated: 201 is a 2xx response status, yet on a
cache miss with a CLOSED circuit the resulting status is `"degraded"`, not
`"healthy"` (the code treats only status 200 as healthy). -/
theorem http_201_probe_not_healthy :
    200 ≤ 201 ∧ 201 < 300 ∧
    (check_provider_health_miss "groq" (ProbeResult.response 201) 0 5
        CircuitState.CLOSED (fun _ => none)).1.status = "degraded" ∧
    "degraded" ≠ "healthy" :=
  ⟨by norm_num, by norm_num, rfl, by decide⟩

/-- C4 (amended): on a cache miss the returned status is exactly the
specification fold — 200 → healthy, other statuses strictly between 200 and
500 → degraded, anything else / timeout / exception → down, then OPEN forces
down and HALF_OPEN downgrades healthy to degraded — and the folded result is
written back to the cache under the provider's key before being returned. -/
theorem health_classification_fold_cache (provider : String) (probe : ProbeResult)
    (now rt : ℚ) (cs : CircuitState) (cache : String → Option ProviderHealthStatus) :
    (check_provider_health_miss provider probe now rt cs cache).1.status =
      spec_folded_status probe cs ∧
    (check_provider_health_miss provider probe now rt cs cache).2
        (health_cache_key provider) =
      some (check_provider_health_miss provider probe now rt cs cache).1 := by
  constructor
  · cases probe <;> cases cs <;>
      simp [check_provider_health_miss, fold_circuit_state, check_provider_endpoint,
        spec_folded_status, spec_raw_status] <;>
      split_ifs <;> simp_all
  · simp [check_provider_health_miss]

/-- The per-provider result handling in `check_all_providers`: an exception
from a provider's check (gathered with `return_exceptions=True`) becomes a
synthetic down entry carrying the error message; a normal result is kept. -/
def health_or_down (now : ℚ) (r : Except String ProviderHealthStatus) :
    ProviderHealthStatus :=
  match r with
  | Except.ok h => h
  | Except.error msg => ⟨"down", now, none, some msg⟩

/-- `check_all_providers`: each registered provider's check outcome (normal
result or raised exception, as gathered concurrently) is modelled by the
function `outcome`; the result maps every provider to its entry. -/
def check_all_providers (now : ℚ)
    (outcome : String → Except String ProviderHealthStatus) :
    List (String × ProviderHealthStatus) :=
  PROVIDERS.map (fun p => (p, health_or_down now (outcome p)))

/-- C7: `check_all_providers` always yields exactly one entry per registered
provider (N entries, total function — it never raises); a provider whose check
raised gets a synthetic down entry carrying the error message, and every
provider whose check returned normally keeps its own result unaffected. -/
theorem check_all_providers_isolation (now : ℚ)
    (outcome : String → Except String ProviderHealthStatus) :
    (check_all_providers now outcome).length = PROVIDERS.length ∧
    ∀ p ∈ PROVIDERS,
      (∀ h, outcome p = Except.ok h →
        (check_all_providers now outcome).lookup p = some h) ∧
      (∀ msg, outcome p = Except.error msg →
        (check_all_providers now outcome).lookup p =
          some ⟨"down", now, none, some msg⟩) := by
  constructor
  · simp [check_all_providers]
  · intro p hp
    fin_cases hp <;>
      exact ⟨fun h hx => by
          simp [check_all_providers, PROVIDERS, HEALTH_CHECK_ENDPOINTS, List.lookup,
            health_or_down, hx],
        fun msg hx => by
          simp [check_all_providers, PROVIDERS, HEALTH_CHECK_ENDPOINTS, List.lookup,
            health_or_down, hx]⟩

/-- Check outcomes where only the openrouter probe raises. -/
def witnessOutcome : String → Except String ProviderHealthStatus :=
  fun p => if p = "openrouter" then Except.error "connection reset"
           else Except.ok ⟨"healthy", 0, some 100, none⟩

/-- Witness for `check_all_providers_isolation`: with only the openrouter check
raising, all 4 providers get entries, openrouter's is a synthetic down entry
with the error message, and groq's healthy result is untouched. -/
theorem check_all_providers_isolation_witness :
    (check_all_providers 0 witnessOutcome).length = PROVIDERS.length ∧
    (check_all_providers 0 witnessOutcome).lookup "openrouter" =
      some ⟨"down", 0, none, some "connection reset"⟩ ∧
    (check_all_providers 0 witnessOutcome).lookup "groq" =
      some ⟨"healthy", 0, some 100, none⟩ :=
  have h := check_all_providers_isolation 0 witnessOutcome
  ⟨h.1,
    (h.2 "openrouter" (by simp [PROVIDERS, HEALTH_CHECK_ENDPOINTS])).2
      "connection reset" rfl,
    (h.2 "groq" (by simp [PROVIDERS, HEALTH_CHECK_ENDPOINTS])).1
      ⟨"healthy", 0, some 100, none⟩ rfl⟩

/-! ## Model registry (`backend/app/services/cloud_ai/model_registry.py`)

Costs, latencies and reliability scores are exact decimal constants in the
source, modelled as rationals. -/

/-- Modelled from the spec: the capability tag enum `TaskType` of
`ai_council.core.models` (that module is not among the sources); its
constructors are the members referenced by the registry, the clients and
the tests. -/
inductive TaskType where
  | REASONING
  | RESEARCH
  | CODE_GENERATION
  | CREATIVE_OUTPUT
  | FACT_CHECKING
  | DEBUGGING
  | IMAGE_GENERATION
  | VERIFICATION
deriving DecidableEq

/-- The f-string rendering `str(task_type)` used in the no-candidates error. -/
def taskTypeName : TaskType → String
  | TaskType.REASONING => "TaskType.REASONING"
  | TaskType.RESEARCH => "TaskType.RESEARCH"
  | TaskType.CODE_GENERATION => "TaskType.CODE_GENERATION"
  | TaskType.CREATIVE_OUTPUT => "TaskType.CREATIVE_OUTPUT"
  | TaskType.FACT_CHECKING => "TaskType.FACT_CHECKING"
  | TaskType.DEBUGGING => "TaskType.DEBUGGING"
  | TaskType.IMAGE_GENERATION => "TaskType.IMAGE_GENERATION"
  | TaskType.VERIFICATION => "TaskType.VERIFICATION"

/-- One entry of `MODEL_REGISTRY`. -/
structure ModelConfig where
  provider : String
  model_name : String
  capabilities : List TaskType
  cost_per_input_token : ℚ
  cost_per_output_token : ℚ
  average_latency : ℚ
  max_context : Nat
  reliability_score : ℚ
  local_only : Bool := false

/-- `MODEL_REGISTRY`, in source (insertion) order. -/
def MODEL_REGISTRY : List (String × ModelConfig) :=
  [("groq-llama3-70b",
    { provider := "groq", model_name := "llama3-70b-8192",
      capabilities := [TaskType.REASONING, TaskType.RESEARCH, TaskType.CODE_GENERATION],
      cost_per_input_token := 0.00000059, cost_per_output_token := 0.00000079,
      average_latency := 0.5, max_context := 8192, reliability_score := 0.95 }),
   ("groq-mixtral-8x7b",
    { provider := "groq", model_name := "mixtral-8x7b-32768",
      capabilities := [TaskType.REASONING, TaskType.CREATIVE_OUTPUT],
      cost_per_input_token := 0.00000027, cost_per_output_token := 0.00000027,
      average_latency := 0.4, max_context := 32768, reliability_score := 0.93 }),
   ("together-mixtral-8x7b",
    { provider := "together", model_name := "mistralai/Mixtral-8x7B-Instruct-v0.1",
      capabilities := [TaskType.REASONING, TaskType.CODE_GENERATION],
      cost_per_input_token := 0.0000006, cost_per_output_token := 0.0000006,
      average_latency := 1.2, max_context := 32768, reliability_score := 0.92 }),
   ("together-llama2-70b",
    { provider := "together", model_name := "meta-llama/Llama-2-70b-chat-hf",
      capabilities := [TaskType.RESEARCH, TaskType.CREATIVE_OUTPUT],
      cost_per_input_token := 0.0000009, cost_per_output_token := 0.0000009,
      average_latency := 1.5, max_context := 4096, reliability_score := 0.90 }),
   ("openrouter-claude-3-sonnet",
    { provider := "openrouter", model_name := "anthropic/claude-3-sonnet",
      capabilities := [TaskType.REASONING, TaskType.RESEARCH, TaskType.CODE_GENERATION,
                       TaskType.FACT_CHECKING],
      cost_per_input_token := 0.000003, cost_per_output_token := 0.000015,
      average_latency := 2.0, max_context := 200000, reliability_score := 0.98 }),
   ("openrouter-gpt4-turbo",
    { provider := "openrouter", model_name := "openai/gpt-4-turbo",
      capabilities := [TaskType.REASONING, TaskType.CODE_GENERATION, TaskType.DEBUGGING],
      cost_per_input_token := 0.00001, cost_per_output_token := 0.00003,
      average_latency := 3.0, max_context := 128000, reliability_score := 0.97 }),
   ("huggingface-mistral-7b",
    { provider := "huggingface", model_name := "mistralai/Mistral-7B-Instruct-v0.2",
      capabilities := [TaskType.REASONING, TaskType.CREATIVE_OUTPUT],
      cost_per_input_token := 0.0000002, cost_per_output_token := 0.0000002,
      average_latency := 2.5, max_context := 32768, reliability_score := 0.85 }),
   ("ollama-llama2",
    { provider := "ollama", model_name := "llama2",
      capabilities := [TaskType.REASONING, TaskType.RESEARCH, TaskType.CREATIVE_OUTPUT],
      cost_per_input_token := 0.0, cost_per_output_token := 0.0,
      average_latency := 3.0, max_context := 4096, reliability_score := 0.85,
      local_only := true }),
   ("ollama-mistral",
    { provider := "ollama", model_name := "mistral",
      capabilities := [TaskType.REASONING, TaskType.CODE_GENERATION,
                       TaskType.CREATIVE_OUTPUT],
      cost_per_input_token := 0.0, cost_per_output_token := 0.0,
      average_latency := 2.5, max_context := 8192, reliability_score := 0.87,
      local_only := true }),
   ("ollama-codellama",
    { provider := "ollama", model_name := "codellama",
      capabilities := [TaskType.CODE_GENERATION, TaskType.DEBUGGING],
      cost_per_input_token := 0.0, cost_per_output_token := 0.0,
      average_latency := 3.5, max_context := 4096, reliability_score := 0.83,
      local_only := true })]

/-- `get_models_for_task_type`: ids of the registry entries whose capability
list contains the task type, in catalog order. -/
def get_models_for_task_type (task_type : TaskType) : List String :=
  (MODEL_REGISTRY.filter (fun mc => task_type ∈ mc.2.capabilities)).map Prod.fst

/-- The `min`/`max` key `MODEL_REGISTRY[m]["cost_per_input_token"] +
MODEL_REGISTRY[m]["cost_per_output_token"]` (every queried id is a registry
key, so the `none` default is never reached). -/
def model_total_cost (m : String) : ℚ :=
  match MODEL_REGISTRY.lookup m with
  | some c => c.cost_per_input_token + c.cost_per_output_token
  | none => 0

/-- The key `MODEL_REGISTRY[m]["average_latency"]`. -/
def model_latency (m : String) : ℚ :=
  match MODEL_REGISTRY.lookup m with
  | some c => c.average_latency
  | none => 0

/-- The key `MODEL_REGISTRY[m]["reliability_score"]`. -/
def model_reliability (m : String) : ℚ :=
  match MODEL_REGISTRY.lookup m with
  | some c => c.reliability_score
  | none => 0

/-- Python's `min(x :: xs, key := f)`: keeps the current best and replaces it
only on a strictly smaller key, so the first minimiser wins. -/
def pyMinBy (f : α → ℚ) : α → List α → α
  | x, [] => x
  | x, y :: ys => pyMinBy f (if f y < f x then y else x) ys

/-- Python's `max(x :: xs, key := f)`: replaces only on a strictly larger key,
so the first maximiser wins. -/
def pyMaxBy (f : α → ℚ) : α → List α → α
  | x, [] => x
  | x, y :: ys => pyMaxBy f (if f y > f x then y else x) ys

/-- `get_cheapest_model_for_task` (raising `ValueError` is modelled by
`Except.error` with the formatted message). -/
def get_cheapest_model_for_task (task_type : TaskType) : Except String String :=
  match get_models_for_task_type task_type with
  | [] => Except.error ("No models found for task type: " ++ taskTypeName task_type)
  | m :: ms => Except.ok (pyMinBy model_total_cost m ms)

/-- `get_fastest_model_for_task`. -/
def get_fastest_model_for_task (task_type : TaskType) : Except String String :=
  match get_models_for_task_type task_type with
  | [] => Except.error ("No models found for task type: " ++ taskTypeName task_type)
  | m :: ms => Except.ok (pyMinBy model_latency m ms)

/-- `get_best_quality_model_for_task`. -/
def get_best_quality_model_for_task (task_type : TaskType) : Except String String :=
  match get_models_for_task_type task_type with
  | [] => Except.error ("No models found for task type: " ++ taskTypeName task_type)
  | m :: ms => Except.ok (pyMaxBy model_reliability m ms)

/-! ### Lemmas about Python min/max with key -/

lemma pyMinBy_mem {α : Type} (f : α → ℚ) :
    ∀ (xs : List α) (x : α), pyMinBy f x xs ∈ x :: xs := by
  intro xs
  induction xs with
  | nil =>
      intro x
      simp [pyMinBy]
  | cons y ys ih =>
      intro x
      rw [pyMinBy]
      have h := ih (if f y < f x then y else x)
      by_cases hc : f y < f x <;> simp [hc, List.mem_cons] at h ⊢ <;> tauto

lemma pyMinBy_le {α : Type} (f : α → ℚ) :
    ∀ (xs : List α) (x z : α), z ∈ x :: xs → f (pyMinBy f x xs) ≤ f z := by
  intro xs
  induction xs with
  | nil =>
      intro x z hz
      have h1 : z = x := List.mem_singleton.mp hz
      subst h1
      simp [pyMinBy]
  | cons y ys ih =>
      intro x z hz
      rw [pyMinBy]
      have hx : f (pyMinBy f (if f y < f x then y else x) ys) ≤ f x := by
        by_cases hc : f y < f x
        · have h := ih y y (List.mem_cons_self y ys)
          simp only [hc, if_true]
          exact le_trans h (le_of_lt hc)
        · have h := ih x x (List.mem_cons_self x ys)
          simpa [hc] using h
      have hy : f (pyMinBy f (if f y < f x then y else x) ys) ≤ f y := by
        by_cases hc : f y < f x
        · have h := ih y y (List.mem_cons_self y ys)
          simpa [hc] using h
        · have h := ih x x (List.mem_cons_self x ys)
          simp only [hc, if_false]
          exact le_trans h (not_lt.mp hc)
      rcases List.mem_cons.mp hz with h1 | hz2
      · subst h1
        exact hx
      rcases List.mem_cons.mp hz2 with h1 | hz3
      · subst h1
        exact hy
      by_cases hc : f y < f x
      · have h := ih y z (List.mem_cons_of_mem y hz3)
        simpa [hc] using h
      · have h := ih x z (List.mem_cons_of_mem x hz3)
        simpa [hc] using h

/-- Python's `min` returns the first minimiser: everything strictly before the
returned element in the scanned list has a strictly larger key. -/
lemma pyMinBy_first {α : Type} (f : α → ℚ) :
    ∀ (xs : List α) (x : α), ∃ pre post,
      x :: xs = pre ++ pyMinBy f x xs :: post ∧
      ∀ z ∈ pre, f (pyMinBy f x xs) < f z := by
  intro xs
  induction xs with
  | nil =>
      intro x
      exact ⟨[], [], by simp [pyMinBy], by simp⟩
  | cons y ys ih =>
      intro x
      rw [pyMinBy]
      by_cases hc : f y < f x
      · simp only [hc, if_true]
        obtain ⟨pre, post, heq, hpre⟩ := ih y
        refine ⟨x :: pre, post, ?_, ?_⟩
        · rw [List.cons_append, ← heq]
        · intro z hz
          rcases List.mem_cons.mp hz with rfl | hz2
          · have hle : f (pyMinBy f y ys) ≤ f y :=
              pyMinBy_le f ys y y (List.mem_cons_self y ys)
            exact lt_of_le_of_lt hle hc
          · exact hpre z hz2
      · simp only [hc, if_false]
        obtain ⟨pre, post, heq, hpre⟩ := ih x
        have hxy : f x ≤ f y := not_lt.mp hc
        cases pre with
        | nil =>
            simp only [List.nil_append] at heq
            obtain ⟨hx1, hpost⟩ := (List.cons.injEq _ _ _ _).mp heq
            refine ⟨[], y :: ys, ?_, by simp⟩
            rw [List.nil_append, ← hx1]
        | cons p ps =>
            have hp : p = x := ((List.cons.injEq _ _ _ _).mp heq).1.symm
            have hys : ys = ps ++ pyMinBy f x ys :: post :=
              ((List.cons.injEq _ _ _ _).mp heq).2
            have hrx : f (pyMinBy f x ys) < f x := by
              apply hpre
              rw [hp]
              exact List.mem_cons_self x ps
            refine ⟨x :: y :: ps, post, ?_, ?_⟩
            · rw [List.cons_append, List.cons_append, ← hys]
            · intro z hz
              rcases List.mem_cons.mp hz with rfl | hz2
              · exact hrx
              · rcases List.mem_cons.mp hz2 with rfl | hz3
                · exact lt_of_lt_of_le hrx hxy
                · apply hpre
                  rw [hp]
                  exact List.mem_cons_of_mem x hz3

lemma pyMaxBy_eq_pyMinBy_neg {α : Type} (f : α → ℚ) :
    ∀ (xs : List α) (x : α), pyMaxBy f x xs = pyMinBy (fun a => -(f a)) x xs := by
  intro xs
  induction xs with
  | nil =>
      intro x
      rfl
  | cons y ys ih =>
      intro x
      rw [pyMaxBy, pyMinBy]
      simp only [neg_lt_neg_iff]
      exact ih _

lemma pyMaxBy_mem {α : Type} (f : α → ℚ) (xs : List α) (x : α) :
    pyMaxBy f x xs ∈ x :: xs := by
  rw [pyMaxBy_eq_pyMinBy_neg]
  exact pyMinBy_mem _ xs x

lemma pyMaxBy_ge {α : Type} (f : α → ℚ) (xs : List α) (x z : α) (hz : z ∈ x :: xs) :
    f z ≤ f (pyMaxBy f x xs) := by
  rw [pyMaxBy_eq_pyMinBy_neg]
  have h := pyMinBy_le (fun a => -(f a)) xs x z hz
  simpa using h

/-- C6: every capability-filtered query result supports the queried capability;
for a capability with at least one registered model the cheapest selector
returns a supporting model minimising input+output token cost with ties broken
by catalog order (the first minimiser), the fastest selector one minimising
average latency, and the best-quality selector one maximising the reliability
score; for a capability with no registered model all three selectors return
the distinguished no-candidates error. -/
theorem model_selectors_optimal (t : TaskType) :
    (∀ m ∈ get_models_for_task_type t,
       ∃ c, (m, c) ∈ MODEL_REGISTRY ∧ t ∈ c.capabilities) ∧
    (get_models_for_task_type t = [] →
       get_cheapest_model_for_task t =
         Except.error ("No models found for task type: " ++ taskTypeName t) ∧
       get_fastest_model_for_task t =
         Except.error ("No models found for task type: " ++ taskTypeName t) ∧
       get_best_quality_model_for_task t =
         Except.error ("No models found for task type: " ++ taskTypeName t)) ∧
    (∀ m ms, get_models_for_task_type t = m :: ms →
       (∃ w, get_cheapest_model_for_task t = Except.ok w ∧ w ∈ m :: ms ∧
          (∀ m2 ∈ m :: ms, model_total_cost w ≤ model_total_cost m2) ∧
          (∃ pre post, m :: ms = pre ++ w :: post ∧
             ∀ z ∈ pre, model_total_cost w < model_total_cost z)) ∧
       (∃ w, get_fastest_model_for_task t = Except.ok w ∧ w ∈ m :: ms ∧
          ∀ m2 ∈ m :: ms, model_latency w ≤ model_latency m2) ∧
       (∃ w, get_best_quality_model_for_task t = Except.ok w ∧ w ∈ m :: ms ∧
          ∀ m2 ∈ m :: ms, model_reliability m2 ≤ model_reliability w)) := by
  refine ⟨?_, ?_, ?_⟩
  · intro m hm
    unfold get_models_for_task_type at hm
    rcases List.mem_map.mp hm with ⟨mc, hmc, rfl⟩
    rcases List.mem_filter.mp hmc with ⟨hmem, hcap⟩
    exact ⟨mc.2, hmem, by simpa using hcap⟩
  · intro h
    exact ⟨by simp [get_cheapest_model_for_task, h],
      by simp [get_fastest_model_for_task, h],
      by simp [get_best_quality_model_for_task, h]⟩
  · intro m ms hms
    refine ⟨⟨pyMinBy model_total_cost m ms, ?_, ?_, ?_, ?_⟩,
      ⟨pyMinBy model_latency m ms, ?_, ?_, ?_⟩,
      ⟨pyMaxBy model_reliability m ms, ?_, ?_, ?_⟩⟩
    · unfold get_cheapest_model_for_task
      rw [hms]
    · exact pyMinBy_mem _ ms m
    · intro m2 hm2
      exact pyMinBy_le _ ms m m2 hm2
    · exact pyMinBy_first _ ms m
    · unfold get_fastest_model_for_task
      rw [hms]
    · exact pyMinBy_mem _ ms m
    · intro m2 hm2
      exact pyMinBy_le _ ms m m2 hm2
    · unfold get_best_quality_model_for_task
      rw [hms]
    · exact pyMaxBy_mem _ ms m
    · intro m2 hm2
      exact pyMaxBy_ge _ ms m m2 hm2

/-- Witness for `model_selectors_optimal`: the REASONING capability has eight
registered models and all three selectors succeed on it, while
IMAGE_GENERATION has none and all three selectors return the no-candidates
error. -/
theorem model_selectors_optimal_witness :
    ((∃ w, get_cheapest_model_for_task TaskType.REASONING = Except.ok w ∧
        w ∈ "groq-llama3-70b" :: ["groq-mixtral-8x7b", "together-mixtral-8x7b",
          "openrouter-claude-3-sonnet", "openrouter-gpt4-turbo",
          "huggingface-mistral-7b", "ollama-llama2", "ollama-mistral"] ∧
        (∀ m2 ∈ "groq-llama3-70b" :: ["groq-mixtral-8x7b", "together-mixtral-8x7b",
          "openrouter-claude-3-sonnet", "openrouter-gpt4-turbo",
          "huggingface-mistral-7b", "ollama-llama2", "ollama-mistral"],
          model_total_cost w ≤ model_total_cost m2) ∧
        (∃ pre post, "groq-llama3-70b" :: ["groq-mixtral-8x7b", "together-mixtral-8x7b",
          "openrouter-claude-3-sonnet", "openrouter-gpt4-turbo",
          "huggingface-mistral-7b", "ollama-llama2", "ollama-mistral"] =
            pre ++ w :: post ∧
          ∀ z ∈ pre, model_total_cost w < model_total_cost z)) ∧
     (∃ w, get_fastest_model_for_task TaskType.REASONING = Except.ok w ∧
        w ∈ "groq-llama3-70b" :: ["groq-mixtral-8x7b", "together-mixtral-8x7b",
          "openrouter-claude-3-sonnet", "openrouter-gpt4-turbo",
          "huggingface-mistral-7b", "ollama-llama2", "ollama-mistral"] ∧
        ∀ m2 ∈ "groq-llama3-70b" :: ["groq-mixtral-8x7b", "together-mixtral-8x7b",
          "openrouter-claude-3-sonnet", "openrouter-gpt4-turbo",
          "huggingface-mistral-7b", "ollama-llama2", "ollama-mistral"],
          model_latency w ≤ model_latency m2) ∧
     (∃ w, get_best_quality_model_for_task TaskType.REASONING = Except.ok w ∧
        w ∈ "groq-llama3-70b" :: ["groq-mixtral-8x7b", "together-mixtral-8x7b",
          "openrouter-claude-3-sonnet", "openrouter-gpt4-turbo",
          "huggingface-mistral-7b", "ollama-llama2", "ollama-mistral"] ∧
        ∀ m2 ∈ "groq-llama3-70b" :: ["groq-mixtral-8x7b", "together-mixtral-8x7b",
          "openrouter-claude-3-sonnet", "openrouter-gpt4-turbo",
          "huggingface-mistral-7b", "ollama-llama2", "ollama-mistral"],
          model_reliability m2 ≤ model_reliability w)) ∧
    (get_cheapest_model_for_task TaskType.IMAGE_GENERATION =
       Except.error ("No models found for task type: " ++
         taskTypeName TaskType.IMAGE_GENERATION) ∧
     get_fastest_model_for_task TaskType.IMAGE_GENERATION =
       Except.error ("No models found for task type: " ++
         taskTypeName TaskType.IMAGE_GENERATION) ∧
     get_best_quality_model_for_task TaskType.IMAGE_GENERATION =
       Except.error ("No models found for task type: " ++
         taskTypeName TaskType.IMAGE_GENERATION)) :=
  ⟨(model_selectors_optimal TaskType.REASONING).2.2 "groq-llama3-70b"
      ["groq-mixtral-8x7b", "together-mixtral-8x7b", "openrouter-claude-3-sonnet",
       "openrouter-gpt4-turbo", "huggingface-mistral-7b", "ollama-llama2",
       "ollama-mistral"] rfl,
   (model_selectors_optimal TaskType.IMAGE_GENERATION).2.1 rfl⟩

/-! ## Execution mode presets (`backend/app/services/execution_mode_config.py`) -/

/-- Modelled from the spec: the `ExecutionMode` enum of `ai_council.core.models`
(that module is not among the sources); the three members are the ones the
presets reference. -/
inductive ExecutionMode where
  | FAST
  | BALANCED
  | BEST_QUALITY
deriving DecidableEq

/-- Modelled from the spec: the `ExecutionModeConfig` dataclass of
`ai_council.utils.config` (not among the sources); its fields are exactly the
keyword arguments used to construct the three shipped presets. -/
structure ExecutionModeConfig where
  mode : ExecutionMode
  max_parallel_executions : Nat
  timeout_seconds : ℚ
  max_retries : Nat
  enable_arbitration : Bool
  enable_synthesis : Bool
  accuracy_requirement : ℚ
  cost_limit : Option ℚ
  preferred_model_types : List String
  fallback_strategy : String

/-- The `"fast"` preset. -/
def fastConfig : ExecutionModeConfig :=
  { mode := ExecutionMode.FAST, max_parallel_executions := 3, timeout_seconds := 30,
    max_retries := 1, enable_arbitration := false, enable_synthesis := true,
    accuracy_requirement := 0.7, cost_limit := some 1,
    preferred_model_types := ["groq-mixtral-8x7b", "huggingface-mistral-7b",
      "together-mixtral-8x7b"],
    fallback_strategy := "cheapest" }

/-- The `"balanced"` preset. -/
def balancedConfig : ExecutionModeConfig :=
  { mode := ExecutionMode.BALANCED, max_parallel_executions := 5, timeout_seconds := 60,
    max_retries := 3, enable_arbitration := true, enable_synthesis := true,
    accuracy_requirement := 0.8, cost_limit := some 5,
    preferred_model_types := ["groq-llama3-70b", "together-mixtral-8x7b",
      "groq-mixtral-8x7b", "together-llama2-70b"],
    fallback_strategy := "automatic" }

/-- The `"best_quality"` preset. -/
def bestQualityConfig : ExecutionModeConfig :=
  { mode := ExecutionMode.BEST_QUALITY, max_parallel_executions := 8,
    timeout_seconds := 120, max_retries := 5, enable_arbitration := true,
    enable_synthesis := true, accuracy_requirement := 0.95, cost_limit := none,
    preferred_model_types := ["openrouter-claude-3-sonnet", "openrouter-gpt4-turbo",
      "groq-llama3-70b", "together-llama2-70b"],
    fallback_strategy := "highest_quality" }

/-- `EXECUTION_MODE_CONFIGS`, in source order. -/
def EXECUTION_MODE_CONFIGS : List (String × ExecutionModeConfig) :=
  [("fast", fastConfig), ("balanced", balancedConfig), ("best_quality", bestQualityConfig)]

/-- C8: across the three shipped presets, `max_parallel_executions` and
`accuracy_requirement` are monotone from fast through balanced to
best_quality, and fast's cost limit (which is present) is strictly smaller
than every other preset's cost limit that is set. -/
theorem execution_mode_presets_monotone :
    ∃ f b q, EXECUTION_MODE_CONFIGS.lookup "fast" = some f ∧
      EXECUTION_MODE_CONFIGS.lookup "balanced" = some b ∧
      EXECUTION_MODE_CONFIGS.lookup "best_quality" = some q ∧
      f.max_parallel_executions ≤ b.max_parallel_executions ∧
      b.max_parallel_executions ≤ q.max_parallel_executions ∧
      f.accuracy_requirement ≤ b.accuracy_requirement ∧
      b.accuracy_requirement ≤ q.accuracy_requirement ∧
      (∀ cf, f.cost_limit = some cf →
        ∀ name cfg, (name, cfg) ∈ EXECUTION_MODE_CONFIGS → name ≠ "fast" →
          ∀ co, cfg.cost_limit = some co → cf < co) := by
  refine ⟨fastConfig, balancedConfig, bestQualityConfig, rfl, rfl, rfl,
    by norm_num [fastConfig, balancedConfig],
    by norm_num [balancedConfig, bestQualityConfig],
    by norm_num [fastConfig, balancedConfig],
    by norm_num [balancedConfig, bestQualityConfig], ?_⟩
  intro cf hcf name cfg hmem hne co hco
  simp only [EXECUTION_MODE_CONFIGS, List.mem_cons, List.not_mem_nil, or_false] at hmem
  rcases hmem with h | h | h
  · rw [Prod.mk.injEq] at h
    exact absurd h.1 hne
  · rw [Prod.mk.injEq] at h
    rw [h.2] at hco
    simp only [balancedConfig, Option.some.injEq] at hco
    simp only [fastConfig, Option.some.injEq] at hcf
    rw [← hco, ← hcf]
    norm_num
  · rw [Prod.mk.injEq] at h
    rw [h.2] at hco
    simp [bestQualityConfig] at hco
